import Mathlib

/-!
Verification of the catalog-store and event-channel core of the RoofTop-Menu
repository (Angular front end).  The definitions below are a shallow embedding
of `src/app/core/services/menu-data/menu-data.ts` (both the terse variant under
`src/src` and the commented variant shipped as an unnamed source file) and of
`src/app/core/services/socket-service/socket.ts`.  Pure object rewriting is
translated to pure Lean functions; the `BehaviorSubject` state is explicit
state passing; the returned RxJS observables are denoted by the sequence of
values a subscriber receives.
-/

set_option maxHeartbeats 1000000

namespace RoofTop

/-- Localized display text in the three supported languages (`it`/`en`/`fr`),
as in the `name`/`description`/`ingredients` fields of the interfaces in
`menu-data.ts`. -/
structure LocalizedText where
  it : String
  en : String
  fr : String
deriving DecidableEq

/-- `interface MenuItem` of `menu-data.ts`.  Numeric fields are only carried
around, never computed with, so `Nat` stands in for the JS numbers; the
`allergens` entries are opaque to this service and are modelled by their
numeric codes. -/
structure MenuItem where
  _id : String
  name : LocalizedText
  description : Option LocalizedText
  price : Nat
  quantitaDisponibile : Nat
  disponibile : Bool
  frozen : Option Bool
  allergens : List Nat
  ingredients : Option LocalizedText
deriving DecidableEq

/-- `interface MenuCategory` of `menu-data.ts`. -/
structure MenuCategory where
  _id : String
  name : LocalizedText
  items : List MenuItem
deriving DecidableEq

/-- `interface PublicMenuData` of `menu-data.ts` (the Catalog of the spec). -/
structure PublicMenuData where
  categories : List MenuCategory
  allergens : List Nat
deriving DecidableEq

/-- Payload of the `menu_item_updated` socket event as declared in
`initializeSocketListeners`: identifier, new quantity, new availability and an
optional new localized name. -/
structure ItemUpdatePayload where
  _id : String
  quantitaDisponibile : Nat
  disponibile : Bool
  name : Option LocalizedText
deriving DecidableEq

/-- The item rewrite both variants of `updateMenuItemLocally` perform on a
matched item: `{ ...item, quantitaDisponibile: u.quantitaDisponibile,
disponibile: u.disponibile }`.  Note that the payload's optional `name` is not
copied: the code only overwrites the two availability fields. -/
def applyItemUpdate (u : ItemUpdatePayload) (item : MenuItem) : MenuItem :=
  { item with
    quantitaDisponibile := u.quantitaDisponibile
    disponibile := u.disponibile }

/-- Per-item step of the `src/src` variant of `updateMenuItemLocally`:
`if (item._id === updatedItem._id) { return {...} } return item`. -/
def updMenuItem (u : ItemUpdatePayload) (item : MenuItem) : MenuItem :=
  if item._id == u._id then applyItemUpdate u item else item

/-- Per-category step of the `src/src` variant: rebuild the category with
every item rewritten by `updMenuItem`. -/
def updCategory (u : ItemUpdatePayload) (c : MenuCategory) : MenuCategory :=
  { c with items := c.items.map (updMenuItem u) }

/-- Catalog-level merge of the `src/src` variant of `updateMenuItemLocally`
(lines 131-152 of `menu-data.ts`): map over every category and every item,
rewriting each item whose `_id` matches the payload. -/
def applyPatchSrc (m : PublicMenuData) (u : ItemUpdatePayload) : PublicMenuData :=
  { m with categories := m.categories.map (updCategory u) }

/-- JS `Array.prototype.findIndex`, returning `none` for `-1`. -/
def findIndex (p : α → Bool) : List α → Option Nat
  | [] => none
  | x :: xs => if p x then some 0 else (findIndex p xs).map (· + 1)

/-- `const updatedItems = [...items]; updatedItems[k] = f(updatedItems[k])`:
copy the list and replace the element at index `k` by its image under `f`. -/
def updateAt (f : α → α) : Nat → List α → List α
  | _, [] => []
  | 0, x :: xs => f x :: xs
  | k + 1, x :: xs => x :: updateAt f k xs

/-- Per-category pass of the commented variant of `updateMenuItemLocally`
(the `itemFound` loop): once the item was found every later category is
returned unchanged; otherwise `findIndex` looks the item up and, when found,
only that index of a copied item array is rewritten. -/
def updateAltCats (u : ItemUpdatePayload) : Bool → List MenuCategory → List MenuCategory
  | _, [] => []
  | true, c :: cs => c :: updateAltCats u true cs
  | false, c :: cs =>
    match findIndex (fun item => item._id == u._id) c.items with
    | none => c :: updateAltCats u false cs
    | some k =>
      { c with items := updateAt (applyItemUpdate u) k c.items } :: updateAltCats u true cs

/-- Catalog-level merge of the commented variant of `updateMenuItemLocally`:
`{ ...currentMenu, categories: <itemFound/findIndex pass> }`. -/
def applyPatchAlt (m : PublicMenuData) (u : ItemUpdatePayload) : PublicMenuData :=
  { m with categories := updateAltCats u false m.categories }

/-- `true` exactly when the item carries the given identifier. -/
def itemMatches (id : String) (item : MenuItem) : Bool :=
  item._id == id

/-- Number of items of the category carrying the given identifier. -/
def occInCat (id : String) (c : MenuCategory) : Nat :=
  c.items.countP (itemMatches id)

/-- Number of items of the whole catalog carrying the given identifier. -/
def catsOcc (id : String) (cs : List MenuCategory) : Nat :=
  (cs.map (occInCat id)).sum

/-- Number of items of the catalog carrying the given identifier. -/
def occCount (m : PublicMenuData) (id : String) : Nat :=
  catsOcc id m.categories

/-- Total number of items of the catalog. -/
def itemCount (m : PublicMenuData) : Nat :=
  (m.categories.map (fun c => c.items.length)).sum

/-- The item stored at category index `ci`, item index `k` of the catalog. -/
def getItemAt (m : PublicMenuData) (ci k : Nat) : Option MenuItem :=
  match m.categories[ci]? with
  | some c => c.items[k]?
  | none => none

/-!  Service state.  `menuDataSubject` is a `BehaviorSubject<PublicMenuData |
null>`: it holds a current value and replays it to new subscribers, then
forwards every later `next`.  We record the current value together with the
whole emission history (initial value included, in order), which is what a
subscriber attached from construction time observes before filtering. -/

/-- State of `menuDataSubject`: current value plus the full emission history
(the initial emission included). -/
structure MenuState where
  current : Option PublicMenuData
  log : List (Option PublicMenuData)
deriving DecidableEq

/-- State right after `new BehaviorSubject<PublicMenuData | null>(null)`. -/
def initState : MenuState :=
  { current := none, log := [none] }

/-- `this.menuDataSubject.next(v)`. -/
def pushNext (s : MenuState) (v : PublicMenuData) : MenuState :=
  { current := some v, log := s.log ++ [some v] }

/-- What a subscriber of `menuData$ = menuDataSubject.pipe(filter(data =>
data !== null))` attached from the start has received: every non-null value of
the history, in emission order.  (In the commented variant the pipe also has
`distinctUntilChanged()`, whose default comparator is reference equality;
since every value pushed by this service is a freshly constructed object, that
operator never drops a value, so the same denotation applies.) -/
def visibleEmissions (s : MenuState) : List PublicMenuData :=
  s.log.filterMap id

/-- `updateMenuItemLocally` at service level: when no catalog is held, warn
and return without touching the subject; otherwise push the merged catalog. -/
def svcUpdateItem (s : MenuState) (u : ItemUpdatePayload) : MenuState :=
  match s.current with
  | none => s
  | some m => pushNext s (applyPatchSrc m u)

/-- The `menu_item_updated` listener: forwards the payload to
`updateMenuItemLocally`. -/
def svcItemUpdated (s : MenuState) (u : ItemUpdatePayload) : MenuState :=
  svcUpdateItem s u

/-- The `menu_item_sold_out` listener: calls `updateMenuItemLocally` with
`{ _id, quantitaDisponibile: 0, disponibile: false }`. -/
def svcSoldOut (s : MenuState) (id : String) : MenuState :=
  svcUpdateItem s { _id := id, quantitaDisponibile := 0, disponibile := false, name := none }

/-- The `menu_reset` listener: pushes the replacement catalog wholesale. -/
def svcReset (s : MenuState) (m : PublicMenuData) : MenuState :=
  pushNext s m

/-!  Fetch model.  `getMenuData`/`reloadMenu` return observables; we denote a
returned observable by what happens when it is subscribed once: the state
change, the number of HTTP fetches performed, the values the caller receives,
and whether the caller's stream errors. -/

/-- Outcome of one HTTP `GET` of the menu endpoint. -/
inductive FetchOutcome where
  | ok (d : PublicMenuData)
  | err
deriving DecidableEq

/-- The observable `getMenuData()` returns, before anything subscribes: the
shared `menuData$` stream when a catalog is cached, otherwise the cold
`http.get(...).pipe(tap(...))` pipeline. -/
inductive RetStream where
  | liveSubject
  | coldFetch
deriving DecidableEq

/-- `getMenuData()` body: `if (cached) return this.menuData$; return
this.http.get(...)`.  The call itself performs no fetch and no state change;
those happen at subscription time. -/
def getMenuDataStream (s : MenuState) : RetStream :=
  match s.current with
  | some _ => .liveSubject
  | none => .coldFetch

/-- Result of subscribing one returned observable once. -/
structure SubResult where
  state : MenuState
  fetches : Nat
  yields : List PublicMenuData
  failed : Bool
deriving DecidableEq

/-- Denotation of subscribing a stream returned by `getMenuData()`, given the
subject state at subscription time, the outcome of the HTTP request (consulted
only by the cold pipeline), and the catalogs pushed to the subject later
(`future`).  The shared subject stream replays the current non-null value and
then every later push; the cold pipeline performs exactly one fetch and either
yields the single response (stored via `tap`) and completes, or errors without
touching the subject. -/
def subscribeRet (r : RetStream) (s : MenuState) (f : FetchOutcome)
    (future : List PublicMenuData) : SubResult :=
  match r with
  | .liveSubject =>
    { state := s, fetches := 0, yields := s.current.toList ++ future, failed := false }
  | .coldFetch =>
    match f with
    | .ok d => { state := pushNext s d, fetches := 1, yields := [d], failed := false }
    | .err => { state := s, fetches := 1, yields := [], failed := true }

/-- Denotation of subscribing the observable `reloadMenu()` returns: always a
fresh `http.get(...).pipe(tap(...))`, with no cache consultation. -/
def subscribeReload (s : MenuState) (f : FetchOutcome) : SubResult :=
  match f with
  | .ok d => { state := pushNext s d, fetches := 1, yields := [d], failed := false }
  | .err => { state := s, fetches := 1, yields := [], failed := true }

/-!  Event channel (`socket.ts`).  The connection slot is `private socket?:
Socket`; the only configuration this service passes to `io(...)` is the
reconnection-attempt bound and the handshake timeout.  Event-handler
bookkeeping on the shared connection is a list of `(eventName, handlerId)`
registrations in registration order; each subscription of a `listen(...)`
observable registers one fresh handler and its teardown calls
`socket.off(eventName, handler)` with that same handler. -/

/-- The options `connect()` passes to `io(backendUrl, ...)`. -/
structure SocketOptions where
  reconnectionAttempts : Nat
  timeout : Nat
deriving DecidableEq

/-- `connect()`: early return when `this.socket` already exists, otherwise
create the connection with `reconnectionAttempts: 5, timeout: 15000`. -/
def connect (s : Option SocketOptions) : Option SocketOptions :=
  match s with
  | some c => some c
  | none => some { reconnectionAttempts := 5, timeout := 15000 }

/-- Handler registrations on the shared connection, in registration order. -/
abbrev HandlerRegistry := List (String × Nat)

/-- `socket.on(eventName, handler)`: append the registration. -/
def onRegister (r : HandlerRegistry) (e : String) (h : Nat) : HandlerRegistry :=
  r ++ [(e, h)]

/-- `socket.off(eventName, handler)`: remove the registrations of exactly this
handler for exactly this event. -/
def offHandler (r : HandlerRegistry) (e : String) (h : Nat) : HandlerRegistry :=
  r.filter (fun p => !(p.1 == e && p.2 == h))

/-- Handler ids invoked when the server delivers event `e`: every handler
registered for `e`, in order.  Each invoked handler forwards the payload to
its own subscriber. -/
def delivered (r : HandlerRegistry) (e : String) : List Nat :=
  (r.filter (fun p => p.1 == e)).map (fun p => p.2)

/-- Number of registrations of handler `h` for event `e`. -/
def regCount (r : HandlerRegistry) (e : String) (h : Nat) : Nat :=
  r.countP (fun p => p.1 == e && p.2 == h)

/-!  Helper lemmas about the merge passes. -/

theorem mapIf_of_countP_zero (p : α → Bool) (f : α → α) :
    ∀ l : List α, l.countP p = 0 → l.map (fun a => if p a then f a else a) = l := by
  intro l
  induction l with
  | nil => intro _; rfl
  | cons a l ih =>
    intro h
    rw [List.countP_cons] at h
    cases hpa : p a with
    | true =>
      rw [hpa, if_pos rfl] at h
      omega
    | false =>
      rw [hpa, if_neg (fun hc => Bool.noConfusion hc), Nat.add_zero] at h
      rw [List.map_cons, hpa, if_neg (fun hc => Bool.noConfusion hc), ih h]

theorem findIndex_eq_none_of_countP_zero (p : α → Bool) :
    ∀ l : List α, l.countP p = 0 → findIndex p l = none := by
  intro l
  induction l with
  | nil => intro _; rfl
  | cons a l ih =>
    intro h
    rw [List.countP_cons] at h
    cases hpa : p a with
    | true =>
      rw [hpa, if_pos rfl] at h
      omega
    | false =>
      rw [hpa, if_neg (fun hc => Bool.noConfusion hc), Nat.add_zero] at h
      show (if p a = true then some 0 else (findIndex p l).map (· + 1)) = none
      rw [hpa, if_neg (fun hc => Bool.noConfusion hc), ih h, Option.map_none']

theorem updateAt_eq_set (f : α → α) :
    ∀ (l : List α) (k : Nat) (x : α), l[k]? = some x → updateAt f k l = l.set k (f x) := by
  intro l
  induction l with
  | nil => intro k x h; simp at h
  | cons a l ih =>
    intro k x h
    cases k with
    | zero =>
      rw [List.getElem?_cons_zero, Option.some.injEq] at h
      subst h
      rfl
    | succ k =>
      rw [List.getElem?_cons_succ] at h
      show a :: updateAt f k l = (a :: l).set (k + 1) (f x)
      rw [List.set_cons_succ, ih k x h]

theorem countP_one_split (p : α → Bool) (f : α → α) :
    ∀ l : List α, l.countP p = 1 →
      ∃ k x, l[k]? = some x ∧ p x = true ∧
        l.map (fun a => if p a then f a else a) = l.set k (f x) ∧
        findIndex p l = some k := by
  intro l
  induction l with
  | nil => intro h; simp [List.countP_nil] at h
  | cons a l ih =>
    intro h
    rw [List.countP_cons] at h
    cases hpa : p a with
    | true =>
      rw [hpa, if_pos rfl] at h
      refine ⟨0, a, List.getElem?_cons_zero, hpa, ?_, ?_⟩
      · rw [List.map_cons, hpa, if_pos rfl, List.set_cons_zero,
          mapIf_of_countP_zero p f l (by omega)]
      · show (if p a = true then some 0 else (findIndex p l).map (· + 1)) = some 0
        rw [hpa, if_pos rfl]
    | false =>
      rw [hpa, if_neg (fun hc => Bool.noConfusion hc), Nat.add_zero] at h
      obtain ⟨k, x, hget, hpx, hmap, hfind⟩ := ih h
      refine ⟨k + 1, x, ?_, hpx, ?_, ?_⟩
      · rw [List.getElem?_cons_succ]
        exact hget
      · rw [List.map_cons, hpa, if_neg (fun hc => Bool.noConfusion hc),
          List.set_cons_succ, hmap]
      · show (if p a = true then some 0 else (findIndex p l).map (· + 1)) = some (k + 1)
        rw [hpa, if_neg (fun hc => Bool.noConfusion hc), hfind, Option.map_some']

theorem map_updMenuItem_eq (u : ItemUpdatePayload) (l : List MenuItem) :
    l.map (updMenuItem u) =
      l.map (fun a => if itemMatches u._id a then applyItemUpdate u a else a) := rfl

theorem catsOcc_cons (id : String) (c : MenuCategory) (cs : List MenuCategory) :
    catsOcc id (c :: cs) = occInCat id c + catsOcc id cs := by
  simp [catsOcc]

theorem updCategory_of_occ_zero (u : ItemUpdatePayload) (c : MenuCategory)
    (h : occInCat u._id c = 0) : updCategory u c = c := by
  have hitems : c.items.map (updMenuItem u) = c.items := by
    rw [map_updMenuItem_eq]
    exact mapIf_of_countP_zero _ _ _ h
  show { c with items := c.items.map (updMenuItem u) } = c
  rw [hitems]

theorem map_updCategory_of_occ_zero (u : ItemUpdatePayload) :
    ∀ cs : List MenuCategory, catsOcc u._id cs = 0 → cs.map (updCategory u) = cs := by
  intro cs
  induction cs with
  | nil => intro _; rfl
  | cons c cs ih =>
    intro h
    rw [catsOcc_cons] at h
    rw [List.map_cons, updCategory_of_occ_zero u c (by omega), ih (by omega)]

theorem findIndex_items_none (u : ItemUpdatePayload) (c : MenuCategory)
    (h : occInCat u._id c = 0) :
    findIndex (fun item => item._id == u._id) c.items = none :=
  findIndex_eq_none_of_countP_zero _ _ h

theorem updateAltCats_true_eq (u : ItemUpdatePayload) :
    ∀ cs : List MenuCategory, updateAltCats u true cs = cs := by
  intro cs
  induction cs with
  | nil => rfl
  | cons c cs ih => rw [updateAltCats, ih]

theorem updateAltCats_false_of_occ_zero (u : ItemUpdatePayload) :
    ∀ cs : List MenuCategory, catsOcc u._id cs = 0 → updateAltCats u false cs = cs := by
  intro cs
  induction cs with
  | nil => intro _; rfl
  | cons c cs ih =>
    intro h
    rw [catsOcc_cons] at h
    rw [updateAltCats, findIndex_items_none u c (by omega), ih (by omega)]

theorem catsOcc_one_split (u : ItemUpdatePayload) :
    ∀ cs : List MenuCategory, catsOcc u._id cs = 1 →
      ∃ ci c k it, cs[ci]? = some c ∧ c.items[k]? = some it ∧ itemMatches u._id it = true ∧
        cs.map (updCategory u) =
          cs.set ci { c with items := c.items.set k (applyItemUpdate u it) } ∧
        updateAltCats u false cs =
          cs.set ci { c with items := c.items.set k (applyItemUpdate u it) } := by
  intro cs
  induction cs with
  | nil => intro h; simp [catsOcc] at h
  | cons c cs ih =>
    intro h
    rw [catsOcc_cons] at h
    cases hc : occInCat u._id c with
    | zero =>
      rw [hc, Nat.zero_add] at h
      obtain ⟨ci, c', k, it, h1, h2, h3, h4, h5⟩ := ih h
      refine ⟨ci + 1, c', k, it, ?_, h2, h3, ?_, ?_⟩
      · rw [List.getElem?_cons_succ]
        exact h1
      · rw [List.map_cons, updCategory_of_occ_zero u c hc, List.set_cons_succ, h4]
      · rw [updateAltCats, findIndex_items_none u c hc, List.set_cons_succ, h5]
    | succ n =>
      rw [hc] at h
      have hn : occInCat u._id c = 1 := by omega
      have hcs : catsOcc u._id cs = 0 := by omega
      obtain ⟨k, it, hget, hpit, hmap, hfind⟩ :=
        countP_one_split (itemMatches u._id) (applyItemUpdate u) c.items hn
      refine ⟨0, c, k, it, List.getElem?_cons_zero, hget, hpit, ?_, ?_⟩
      · have hc' : updCategory u c = { c with items := c.items.set k (applyItemUpdate u it) } := by
          show { c with items := c.items.map (updMenuItem u) } = _
          rw [map_updMenuItem_eq, hmap]
        rw [List.map_cons, hc', List.set_cons_zero, map_updCategory_of_occ_zero u cs hcs]
      · have hfind' : findIndex (fun item => item._id == u._id) c.items = some k := hfind
        rw [updateAltCats, hfind', List.set_cons_zero, updateAltCats_true_eq u cs]
        show { c with items := updateAt (applyItemUpdate u) k c.items } :: cs =
          { c with items := c.items.set k (applyItemUpdate u it) } :: cs
        rw [updateAt_eq_set (applyItemUpdate u) c.items k it hget]

theorem applyPatchSrc_of_occ_zero (m : PublicMenuData) (u : ItemUpdatePayload)
    (h : occCount m u._id = 0) : applyPatchSrc m u = m := by
  show { m with categories := m.categories.map (updCategory u) } = m
  rw [map_updCategory_of_occ_zero u m.categories h]

theorem applyPatchAlt_of_occ_zero (m : PublicMenuData) (u : ItemUpdatePayload)
    (h : occCount m u._id = 0) : applyPatchAlt m u = m := by
  show { m with categories := updateAltCats u false m.categories } = m
  rw [updateAltCats_false_of_occ_zero u m.categories h]

theorem applyPatch_of_occ_one (m : PublicMenuData) (u : ItemUpdatePayload)
    (h : occCount m u._id = 1) :
    ∃ ci c k it, m.categories[ci]? = some c ∧ c.items[k]? = some it ∧ it._id = u._id ∧
      applyPatchSrc m u =
        { m with categories :=
            m.categories.set ci { c with items := c.items.set k (applyItemUpdate u it) } } ∧
      applyPatchAlt m u =
        { m with categories :=
            m.categories.set ci { c with items := c.items.set k (applyItemUpdate u it) } } := by
  obtain ⟨ci, c, k, it, h1, h2, h3, h4, h5⟩ := catsOcc_one_split u m.categories h
  refine ⟨ci, c, k, it, h1, h2, ?_, ?_, ?_⟩
  · exact of_decide_eq_true h3
  · show { m with categories := m.categories.map (updCategory u) } = _
    rw [h4]
  · show { m with categories := updateAltCats u false m.categories } = _
    rw [h5]

theorem applyPatchSrc_catLen (m : PublicMenuData) (u : ItemUpdatePayload) :
    (applyPatchSrc m u).categories.length = m.categories.length := by
  simp [applyPatchSrc]

theorem applyPatchSrc_itemCount (m : PublicMenuData) (u : ItemUpdatePayload) :
    itemCount (applyPatchSrc m u) = itemCount m := by
  simp [itemCount, applyPatchSrc, List.map_map, Function.comp_def, updCategory]

theorem occCount_le_itemCount (m : PublicMenuData) (id : String) :
    occCount m id ≤ itemCount m := by
  refine List.sum_le_sum ?_
  intro c _
  exact List.countP_le_length _

/-!  Concrete fixtures used by witnesses and counterexamples. -/

/-- Localized text with the same spelling in the three languages. -/
def locOf (s : String) : LocalizedText :=
  { it := s, en := s, fr := s }

/-- A small concrete item. -/
def mkItem (id nm : String) (q : Nat) (d : Bool) : MenuItem :=
  { _id := id, name := locOf nm, description := none, price := 5,
    quantitaDisponibile := q, disponibile := d, frozen := none,
    allergens := [], ingredients := none }

/-- Catalog in which identifier `a1` occurs in two different categories. -/
def c1menu : PublicMenuData :=
  { categories :=
      [ { _id := "c1", name := locOf "Drinks", items := [mkItem "a1" "x" 10 true] },
        { _id := "c2", name := locOf "Food", items := [mkItem "a1" "y" 7 true] } ],
    allergens := [] }

/-- An update patch for `a1` that carries a new localized name. -/
def c1patch : ItemUpdatePayload :=
  { _id := "a1", quantitaDisponibile := 3, disponibile := false, name := some (locOf "nuovo") }

/-- Catalog with a single item `b1`. -/
def c1wmenu : PublicMenuData :=
  { categories := [ { _id := "c1", name := locOf "Drinks", items := [mkItem "b1" "x" 10 true] } ],
    allergens := [7] }

/-- An update patch for `b1` without a name. -/
def c1wpatch : ItemUpdatePayload :=
  { _id := "b1", quantitaDisponibile := 0, disponibile := false, name := none }

/-!  Claim C4. -/

/-- Claim C4: for every catalog and every item-update or sold-out patch whose
identifier matches no item of the catalog, both merge variants return a
catalog structurally equal to the input (the patch is ignored, not an error);
and a patch delivered while no catalog is held leaves the service state
unchanged and raises no error. -/
theorem claim_C4_unknown_patch_ignored (m : PublicMenuData) (u : ItemUpdatePayload)
    (h : occCount m u._id = 0) :
    applyPatchSrc m u = m ∧ applyPatchAlt m u = m ∧
    ∀ s : MenuState, s.current = none → svcUpdateItem s u = s := by
  refine ⟨applyPatchSrc_of_occ_zero m u h, applyPatchAlt_of_occ_zero m u h, ?_⟩
  intro s hs
  unfold svcUpdateItem
  rw [hs]

/-- Patch whose identifier occurs nowhere in `c1menu`. -/
def c4patch : ItemUpdatePayload :=
  { _id := "zzz", quantitaDisponibile := 1, disponibile := true, name := none }

/-- Witness for claim C4 at a concrete catalog, a concrete absent identifier
and the initial (not yet loaded) service state. -/
theorem claim_C4_witness :
    occCount c1menu c4patch._id = 0 ∧
    applyPatchSrc c1menu c4patch = c1menu ∧
    applyPatchAlt c1menu c4patch = c1menu ∧
    svcUpdateItem initState c4patch = initState :=
  ⟨by decide,
   (claim_C4_unknown_patch_ignored c1menu c4patch (by decide)).1,
   (claim_C4_unknown_patch_ignored c1menu c4patch (by decide)).2.1,
   (claim_C4_unknown_patch_ignored c1menu c4patch (by decide)).2.2 initState rfl⟩

/-!  Claim C6. -/

/-- Claim C6: handling a `menu_item_sold_out` event carrying only an
identifier produces exactly the service state (hence catalog) that handling a
`menu_item_updated` event with quantity `0`, availability `false` and no name
produces: the sold-out listener delegates to `updateMenuItemLocally` with
exactly that payload. -/
theorem claim_C6_sold_out_equiv (s : MenuState) (id : String) :
    svcSoldOut s id =
      svcItemUpdated s
        { _id := id, quantitaDisponibile := 0, disponibile := false, name := none } := rfl

/-!  Claim C9. -/

/-- Claim C9: `connect()` is idempotent: with an existing connection it
changes nothing; with no connection it opens one configured with exactly 5
reconnection attempts and a 15000 ms connection timeout. -/
theorem claim_C9_connect_idempotent :
    (∀ c, connect (some c) = some c) ∧
    connect none = some { reconnectionAttempts := 5, timeout := 15000 } ∧
    (∀ s, connect (connect s) = connect s) := by
  refine ⟨fun c => rfl, rfl, fun s => ?_⟩
  cases s <;> rfl

/-!  Claim C1. -/

/-- Counterexample to claim C1 as stated: `c1patch` carries a new localized
name and its identifier occurs in `c1menu`, yet after the merge the matched
item at position (0,0) still has its old name (the payload's name is never
applied), and the item at position (1,0) — a second occurrence of the same
identifier — changed as well, although the claim requires every item other
than the single replaced one to be unchanged. -/
theorem claim_C1_counterexample :
    c1patch.name = some (locOf "nuovo") ∧
    (getItemAt (applyPatchSrc c1menu c1patch) 0 0).map MenuItem.name = some (locOf "x") ∧
    locOf "x" ≠ locOf "nuovo" ∧
    getItemAt (applyPatchSrc c1menu c1patch) 1 0 ≠ getItemAt c1menu 1 0 := by decide

/-- Claim C1 (amended): for every catalog and item-update patch whose
identifier occurs in exactly one item, the merge yields the catalog obtained
from the input by replacing only that item's `quantitaDisponibile` and
`disponibile` with the patch's values — the patch's localized name, even when
present, is not applied, every other field of the item is kept, and the
allergen legend, the category count, the total item count and all positions
are unchanged. -/
theorem claim_C1_patch_locality (m : PublicMenuData) (u : ItemUpdatePayload)
    (h : occCount m u._id = 1) :
    ∃ ci c k it, m.categories[ci]? = some c ∧ c.items[k]? = some it ∧ it._id = u._id ∧
      applyPatchSrc m u =
        { m with categories :=
            (m.categories.set ci
              { c with items :=
                  (c.items.set k
                    { it with
                        quantitaDisponibile := u.quantitaDisponibile,
                        disponibile := u.disponibile }) }) } ∧
      (applyPatchSrc m u).categories.length = m.categories.length ∧
      itemCount (applyPatchSrc m u) = itemCount m ∧
      (applyPatchSrc m u).allergens = m.allergens := by
  obtain ⟨ci, c, k, it, h1, h2, h3, h4, _h5⟩ := applyPatch_of_occ_one m u h
  exact ⟨ci, c, k, it, h1, h2, h3, h4,
    applyPatchSrc_catLen m u, applyPatchSrc_itemCount m u, rfl⟩

/-- Witness for the amended claim C1 at a concrete one-item catalog. -/
theorem claim_C1_witness :
    occCount c1wmenu c1wpatch._id = 1 ∧
    (∃ ci c k it, c1wmenu.categories[ci]? = some c ∧ c.items[k]? = some it ∧
      it._id = c1wpatch._id ∧
      applyPatchSrc c1wmenu c1wpatch =
        { c1wmenu with categories :=
            (c1wmenu.categories.set ci
              { c with items :=
                  (c.items.set k
                    { it with
                        quantitaDisponibile := c1wpatch.quantitaDisponibile,
                        disponibile := c1wpatch.disponibile }) }) } ∧
      (applyPatchSrc c1wmenu c1wpatch).categories.length = c1wmenu.categories.length ∧
      itemCount (applyPatchSrc c1wmenu c1wpatch) = itemCount c1wmenu ∧
      (applyPatchSrc c1wmenu c1wpatch).allergens = c1wmenu.allergens) :=
  ⟨by decide, claim_C1_patch_locality c1wmenu c1wpatch (by decide)⟩

/-!  Claim C2. -/

/-- Catalog held by the service in the C2 scenario. -/
def c2menu : PublicMenuData :=
  { categories := [ { _id := "c1", name := locOf "Drinks", items := [mkItem "a1" "x" 10 true] } ],
    allergens := [] }

/-- Service state after the catalog was loaded. -/
def c2state : MenuState :=
  pushNext initState c2menu

/-- Patch whose identifier occurs nowhere in `c2menu`: applying it reproduces
the held catalog structurally. -/
def c2patch : ItemUpdatePayload :=
  { _id := "zzz", quantitaDisponibile := 1, disponibile := true, name := none }

/-- Counterexample to claim C2 as stated: with `c2menu` held, the merge of the
unknown-identifier patch `c2patch` is structurally equal to `c2menu`, yet the
subject pushes it again and the filtered public stream delivers a second,
structurally identical consecutive emission to its subscribers (the pipeline
filters only `null`; the variant with `distinctUntilChanged()` compares by
reference and every pushed catalog is a freshly constructed object). -/
theorem claim_C2_counterexample :
    visibleEmissions c2state = [c2menu] ∧
    applyPatchSrc c2menu c2patch = c2menu ∧
    visibleEmissions (svcUpdateItem c2state c2patch) = [c2menu, c2menu] := by decide

/-- Claim C2 (amended): whenever a patch is handled while a catalog is held,
the subject unconditionally pushes the merged catalog and subscribers of the
public stream receive one additional emission — even when the merged catalog
is structurally identical to the held one (only the initial `null` is ever
filtered out). -/
theorem claim_C2_patch_always_emits (s : MenuState) (m : PublicMenuData)
    (u : ItemUpdatePayload) (h : s.current = some m) :
    visibleEmissions (svcUpdateItem s u) = visibleEmissions s ++ [applyPatchSrc m u] := by
  unfold svcUpdateItem
  rw [h]
  show visibleEmissions (pushNext s (applyPatchSrc m u)) = _
  unfold visibleEmissions pushNext
  simp

/-- Witness for the amended claim C2 at the concrete held state. -/
theorem claim_C2_witness :
    c2state.current = some c2menu ∧
    visibleEmissions (svcUpdateItem c2state c2patch) =
      visibleEmissions c2state ++ [applyPatchSrc c2menu c2patch] :=
  ⟨rfl, claim_C2_patch_always_emits c2state c2menu c2patch rfl⟩

/-!  Claim C3. -/

/-- The catalog returned by the first fetch in the C3 scenario. -/
def c3d : PublicMenuData :=
  { categories := [ { _id := "c1", name := locOf "Drinks", items := [mkItem "a1" "x" 10 true] } ],
    allergens := [] }

/-- The catalog produced by a later update in the C3 scenario. -/
def c3u : PublicMenuData :=
  { categories := [ { _id := "c1", name := locOf "Drinks", items := [mkItem "a1" "x" 0 false] } ],
    allergens := [] }

/-- Counterexample to claim C3 as stated: with no catalog held, `getMenuData`
returns the cold fetch pipeline; subscribing it with a successful fetch while
the later update `c3u` is pushed to the subject yields only the fetched
catalog `[c3d]` to that caller — not `[c3d, c3u]` as the claim's "and also
every subsequent update" requires.  A subscriber of the shared subject stream
does receive both. -/
theorem claim_C3_counterexample :
    getMenuDataStream initState = RetStream.coldFetch ∧
    (subscribeRet (getMenuDataStream initState) initState (.ok c3d) [c3u]).yields = [c3d] ∧
    [c3d] ≠ [c3d, c3u] ∧
    (subscribeRet RetStream.liveSubject (pushNext initState c3d) (.ok c3d) [c3u]).yields =
      [c3d, c3u] := by decide

/-- Claim C3 (amended): every `getMenuData` call made while no catalog is held
returns the cold fetch pipeline; subscribing it performs one fetch; on success
the result is stored in the subject and the caller's stream yields exactly the
fetched catalog and completes (subsequent updates travel on the shared
`menuData$` stream, not on the returned one); on failure the caller's stream
fails, nothing is stored, and a subsequent call again returns the cold fetch
pipeline. -/
theorem claim_C3_cold_fetch_contract (s : MenuState) (d : PublicMenuData)
    (future : List PublicMenuData) (h : s.current = none) :
    getMenuDataStream s = RetStream.coldFetch ∧
    subscribeRet RetStream.coldFetch s (.ok d) future =
      { state := pushNext s d, fetches := 1, yields := [d], failed := false } ∧
    subscribeRet RetStream.coldFetch s .err future =
      { state := s, fetches := 1, yields := [], failed := true } ∧
    getMenuDataStream (subscribeRet RetStream.coldFetch s .err future).state =
      RetStream.coldFetch := by
  refine ⟨?_, rfl, rfl, ?_⟩
  · unfold getMenuDataStream
    rw [h]
  · show getMenuDataStream s = RetStream.coldFetch
    unfold getMenuDataStream
    rw [h]

/-- Witness for the amended claim C3 at the initial state. -/
theorem claim_C3_witness :
    initState.current = none ∧
    getMenuDataStream initState = RetStream.coldFetch ∧
    subscribeRet RetStream.coldFetch initState (.ok c3d) [] =
      { state := pushNext initState c3d, fetches := 1, yields := [c3d], failed := false } :=
  ⟨rfl, (claim_C3_cold_fetch_contract initState c3d [] rfl).1,
    (claim_C3_cold_fetch_contract initState c3d [] rfl).2.1⟩

/-!  Claim C5. -/

/-- Claim C5: `reloadMenu` always performs exactly one fetch, whatever is
cached; on success the fetched catalog replaces the current one, is emitted to
every existing subscriber of the update stream and is yielded to the caller;
on failure the previously cached state is left exactly as it was and only the
caller's stream fails. -/
theorem claim_C5_reload (s : MenuState) (d : PublicMenuData) :
    subscribeReload s (.ok d) =
      { state := pushNext s d, fetches := 1, yields := [d], failed := false } ∧
    (subscribeReload s (.ok d)).state.current = some d ∧
    visibleEmissions (subscribeReload s (.ok d)).state = visibleEmissions s ++ [d] ∧
    subscribeReload s .err = { state := s, fetches := 1, yields := [], failed := true } := by
  refine ⟨rfl, rfl, ?_, rfl⟩
  show visibleEmissions (pushNext s d) = _
  unfold visibleEmissions pushNext
  simp

/-!  Claim C7. -/

/-- Counterexample to claim C7 as stated: two `getMenuData` calls made (and
subscribed) before the first fetch resolves both see the empty subject, both
receive the cold fetch pipeline, and each subscription performs its own fetch
— two fetches in total, where the claim allows no second fetch to start. -/
theorem claim_C7_counterexample :
    getMenuDataStream initState = RetStream.coldFetch ∧
    (subscribeRet (getMenuDataStream initState) initState (.ok c3d) []).fetches = 1 ∧
    (subscribeRet (getMenuDataStream initState) initState (.ok c3d) []).fetches +
      (subscribeRet (getMenuDataStream initState) initState (.ok c3d) []).fetches = 2 := by
  decide

/-- Claim C7 (amended): there is no fetch de-duplication: every subscription
of a stream returned by `getMenuData` in a not-yet-loaded state performs its
own fetch (so concurrent callers before the first resolution trigger
duplicate fetches, one each). -/
theorem claim_C7_no_fetch_dedup (s : MenuState) (f : FetchOutcome)
    (future : List PublicMenuData) (h : s.current = none) :
    (subscribeRet (getMenuDataStream s) s f future).fetches = 1 := by
  unfold getMenuDataStream
  rw [h]
  cases f <;> rfl

/-- Witness for the amended claim C7 at the initial state. -/
theorem claim_C7_witness :
    initState.current = none ∧
    (subscribeRet (getMenuDataStream initState) initState .err []).fetches = 1 :=
  ⟨rfl, claim_C7_no_fetch_dedup initState .err [] rfl⟩
/-!  Claim C8. -/

theorem offHandler_cons (p : String × Nat) (r : HandlerRegistry) (e : String) (h : Nat) :
    offHandler (p :: r) e h =
      if (p.1 == e && p.2 == h) then offHandler r e h else p :: offHandler r e h := by
  rw [offHandler, List.filter_cons]
  cases hb : (p.1 == e && p.2 == h) with
  | true => rfl
  | false => rfl

theorem regCount_cons (p : String × Nat) (r : HandlerRegistry) (e : String) (h : Nat) :
    regCount (p :: r) e h =
      regCount r e h + (if (p.1 == e && p.2 == h) then 1 else 0) := by
  rw [regCount, List.countP_cons]
  rfl

theorem regCount_off_self (r : HandlerRegistry) (e : String) (h : Nat) :
    regCount (offHandler r e h) e h = 0 := by
  induction r with
  | nil => rfl
  | cons p r ih =>
    rw [offHandler_cons]
    cases hb : (p.1 == e && p.2 == h) with
    | true =>
      rw [if_pos rfl]
      exact ih
    | false =>
      rw [if_neg (fun hc => Bool.noConfusion hc), regCount_cons, hb,
        if_neg (fun hc => Bool.noConfusion hc)]
      rw [Nat.add_zero]
      exact ih

theorem regCount_off_other (r : HandlerRegistry) (e : String) (h : Nat)
    (e' : String) (h' : Nat) (hne : ¬(e' = e ∧ h' = h)) :
    regCount (offHandler r e h) e' h' = regCount r e' h' := by
  induction r with
  | nil => rfl
  | cons p r ih =>
    rw [offHandler_cons]
    cases hb : (p.1 == e && p.2 == h) with
    | true =>
      rw [if_pos rfl, ih, regCount_cons]
      have hpe : p.1 = e ∧ p.2 = h := by
        rw [Bool.and_eq_true, beq_iff_eq, beq_iff_eq] at hb
        exact hb
      have hbp : (p.1 == e' && p.2 == h') = false := by
        by_contra hc
        rw [Bool.not_eq_false, Bool.and_eq_true, beq_iff_eq, beq_iff_eq] at hc
        exact hne ⟨hc.1 ▸ hpe.1, hc.2 ▸ hpe.2⟩
      rw [hbp, if_neg (fun hc => Bool.noConfusion hc), Nat.add_zero]
    | false =>
      rw [if_neg (fun hc => Bool.noConfusion hc), regCount_cons, regCount_cons, ih]

theorem off_length_add_regCount (r : HandlerRegistry) (e : String) (h : Nat) :
    (offHandler r e h).length + regCount r e h = r.length := by
  induction r with
  | nil => rfl
  | cons p r ih =>
    rw [offHandler_cons, regCount_cons]
    cases hb : (p.1 == e && p.2 == h) with
    | true =>
      rw [if_pos rfl, if_pos rfl, List.length_cons]
      omega
    | false =>
      rw [if_neg (fun hc => Bool.noConfusion hc), if_neg (fun hc => Bool.noConfusion hc),
        List.length_cons, List.length_cons]
      omega

theorem mem_offHandler (r : HandlerRegistry) (e : String) (h : Nat) (p : String × Nat) :
    p ∈ offHandler r e h ↔ p ∈ r ∧ ¬(p.1 = e ∧ p.2 = h) := by
  rw [offHandler, List.mem_filter]
  simp [Bool.and_eq_true, beq_iff_eq, not_and]
  tauto

theorem mem_delivered (r : HandlerRegistry) (e : String) (h : Nat) :
    h ∈ delivered r e ↔ (e, h) ∈ r := by
  rw [delivered, List.mem_map]
  constructor
  · rintro ⟨p, hp, rfl⟩
    rw [List.mem_filter, beq_iff_eq] at hp
    obtain ⟨hmem, hfst⟩ := hp
    have hp2 : (e, p.2) = p := by
      rw [← hfst]
    rw [hp2]
    exact hmem
  · intro hmem
    refine ⟨(e, h), ?_, rfl⟩
    rw [List.mem_filter]
    exact ⟨hmem, by simp⟩

/-- Claim C8: cancelling one `listen(eventName)` stream deregisters exactly
the one handler that stream had registered on the shared connection: that
handler is no longer registered (so it is never invoked on later deliveries),
exactly one registration disappears, and every other registration — same
event name or different — stays registered and keeps receiving every
delivered payload. -/
theorem claim_C8_cancellation (r : HandlerRegistry) (e : String) (h : Nat)
    (honce : regCount r e h = 1) :
    regCount (offHandler r e h) e h = 0 ∧
    (offHandler r e h).length + 1 = r.length ∧
    h ∉ delivered (offHandler r e h) e ∧
    ∀ e' h', ¬(e' = e ∧ h' = h) →
      regCount (offHandler r e h) e' h' = regCount r e' h' ∧
      (h' ∈ delivered (offHandler r e h) e' ↔ h' ∈ delivered r e') := by
  refine ⟨regCount_off_self r e h, ?_, ?_, ?_⟩
  · rw [← off_length_add_regCount r e h, honce]
  · intro hmem
    rw [mem_delivered, mem_offHandler] at hmem
    exact hmem.2 ⟨rfl, rfl⟩
  · intro e' h' hne
    refine ⟨regCount_off_other r e h e' h' hne, ?_⟩
    rw [mem_delivered, mem_delivered, mem_offHandler]
    constructor
    · exact fun hp => hp.1
    · exact fun hp => ⟨hp, hne⟩

/-- The registry of the C8 witness: two subscriptions to `menu_item_updated`
(handlers 1 and 2) and one to `menu_reset` (handler 3). -/
def c8reg : HandlerRegistry :=
  [("menu_item_updated", 1), ("menu_item_updated", 2), ("menu_reset", 3)]

/-- Witness for claim C8: cancelling handler 1 removes exactly it; the second
`menu_item_updated` subscription keeps its registration count. -/
theorem claim_C8_witness :
    regCount c8reg "menu_item_updated" 1 = 1 ∧
    regCount (offHandler c8reg "menu_item_updated" 1) "menu_item_updated" 1 = 0 ∧
    (offHandler c8reg "menu_item_updated" 1).length + 1 = c8reg.length ∧
    regCount (offHandler c8reg "menu_item_updated" 1) "menu_item_updated" 2 =
      regCount c8reg "menu_item_updated" 2 :=
  ⟨by decide,
   (claim_C8_cancellation c8reg "menu_item_updated" 1 (by decide)).1,
   (claim_C8_cancellation c8reg "menu_item_updated" 1 (by decide)).2.1,
   ((claim_C8_cancellation c8reg "menu_item_updated" 1 (by decide)).2.2.2
     "menu_item_updated" 2 (by decide)).1⟩

/-!  Claim C10. -/

/-- Catalog in which identifier `d1` occurs in two categories. -/
def c10dup : PublicMenuData :=
  { categories :=
      [ { _id := "c1", name := locOf "Drinks", items := [mkItem "d1" "x" 5 true] },
        { _id := "c2", name := locOf "Food", items := [mkItem "d1" "y" 5 true] } ],
    allergens := [] }

/-- Update patch for the duplicated identifier `d1`. -/
def c10patch : ItemUpdatePayload :=
  { _id := "d1", quantitaDisponibile := 0, disponibile := false, name := none }

/-- `c10dup` with every occurrence of `d1` updated. -/
def c10bothUpd : PublicMenuData :=
  { categories :=
      [ { _id := "c1", name := locOf "Drinks", items := [mkItem "d1" "x" 0 false] },
        { _id := "c2", name := locOf "Food", items := [mkItem "d1" "y" 0 false] } ],
    allergens := [] }

/-- `c10dup` with only the first occurrence of `d1` updated. -/
def c10firstUpd : PublicMenuData :=
  { categories :=
      [ { _id := "c1", name := locOf "Drinks", items := [mkItem "d1" "x" 0 false] },
        { _id := "c2", name := locOf "Food", items := [mkItem "d1" "y" 5 true] } ],
    allergens := [] }

/-- Claim C10: on every catalog in which each item identifier occurs at most
once, the map-over-everything merge (`applyPatchSrc`) and the
findIndex/itemFound merge (`applyPatchAlt`) produce structurally equal
catalogs; on a catalog carrying the same identifier in two places they
differ — the first updates every occurrence, the second only the first
occurrence. -/
theorem claim_C10_merge_refinement :
    (∀ (m : PublicMenuData) (u : ItemUpdatePayload),
      (∀ id, occCount m id ≤ 1) → applyPatchSrc m u = applyPatchAlt m u) ∧
    applyPatchSrc c10dup c10patch ≠ applyPatchAlt c10dup c10patch ∧
    applyPatchSrc c10dup c10patch = c10bothUpd ∧
    applyPatchAlt c10dup c10patch = c10firstUpd := by
  refine ⟨?_, by decide, by decide, by decide⟩
  intro m u hu
  have h01 : occCount m u._id = 0 ∨ occCount m u._id = 1 := by
    have := hu u._id
    omega
  cases h01 with
  | inl h0 =>
    rw [applyPatchSrc_of_occ_zero m u h0, applyPatchAlt_of_occ_zero m u h0]
  | inr h1 =>
    obtain ⟨ci, c, k, it, _, _, _, h4, h5⟩ := applyPatch_of_occ_one m u h1
    rw [h4, h5]

/-- Witness for claim C10 at a concrete duplicate-free catalog. -/
theorem claim_C10_witness :
    (∀ id, occCount c1wmenu id ≤ 1) ∧
    applyPatchSrc c1wmenu c1wpatch = applyPatchAlt c1wmenu c1wpatch :=
  have hu : ∀ id, occCount c1wmenu id ≤ 1 := fun id =>
    le_trans (occCount_le_itemCount c1wmenu id) (by decide)
  ⟨hu, claim_C10_merge_refinement.1 c1wmenu c1wpatch hu⟩
